import Mathlib

/-!
# unas-fan-controller: a verification development

A shallow embedding of `main.go`: the configuration record, the serialized
remote executor (`getSSHClient`, `runSSHCommand`) and the three HTTP handlers
(`handleSensors`, `handleFan`, `handleIndex`).

Effects are made explicit:

* the process-wide mutex `sshMu`, the open SSH clients and sessions and a
  trace of every effect performed live in `SysState`;
* the outcomes of the calls that leave the process (`os.ReadFile`,
  `ssh.ParsePrivateKey`, `ssh.Dial`, `client.NewSession`, `session.Run`) are
  supplied by an `Env`;
* Go errors are their message strings, `fmt.Errorf` with `%w` is string
  concatenation;
* a `defer` is written out as the call it schedules, on every path that
  leaves the function after the `defer` statement, last registered first.
-/

namespace UnasFan

/-! ## Configuration -/

/-- Config mirrors the `Config` struct (host, port, user, password, key_file). -/
structure Config where
  host : String
  port : Int
  user : String
  password : String
  keyFile : String
deriving DecidableEq, Repr

/-! ## The world outside the process -/

/-- An `ssh.AuthMethod` as built by `ssh.Password` and `ssh.PublicKeys`. -/
inductive AuthMethod
  | password (secret : String)
  | publicKeys (signer : String)
deriving DecidableEq, Repr

/-- The `ssh.ClientConfig` literal built in `getSSHClient`. -/
structure ClientConfig where
  user : String
  auth : List AuthMethod
  insecureIgnoreHostKey : Bool
  timeoutSeconds : Nat
deriving DecidableEq, Repr

/-- What `session.Run` leaves behind: both captured streams and its error, if any. -/
structure RunOutcome where
  stdout : String
  stderr : String
  err : Option String
deriving DecidableEq, Repr

/-- Outcomes of the library calls that reach outside the process. -/
structure Env where
  readFile : String → Except String String
  parsePrivateKey : String → Except String String
  dial : String → String → ClientConfig → Except String Unit
  newSession : Nat → Except String Unit
  run : Nat → String → RunOutcome

/-- One observable effect. -/
inductive Event
  | lock
  | unlock
  | readFile (path : String)
  | dial (address : String)
  | newSession (client : Nat)
  | run (session : Nat) (cmd : String)
  | closeSession (session : Nat)
  | closeClient (client : Nat)
deriving DecidableEq, Repr

/-- Process-wide state: the mutex `sshMu`, the handles of the SSH clients and
sessions currently open, the next fresh handle, and the effects so far. -/
structure SysState where
  locked : Bool
  openClients : List Nat
  openSessions : List Nat
  nextHandle : Nat
  trace : List Event
deriving DecidableEq, Repr

/-- Append one effect to the trace. -/
def SysState.emit (s : SysState) (e : Event) : SysState :=
  { s with trace := s.trace ++ [e] }

/-- The state of a freshly started process. -/
def SysState.idle : SysState :=
  { locked := false, openClients := [], openSessions := [], nextHandle := 0, trace := [] }

/-- The verb `%d` of `fmt.Sprintf` on an integer. -/
def fmtInt (i : Int) : String :=
  match i with
  | Int.ofNat n => Nat.repr n
  | Int.negSucc n => "-" ++ Nat.repr (n + 1)

/-! ## The remote executor -/

/-- The part of `getSSHClient` after the credentials are collected (lines 74-91):
refuse an empty method list, otherwise dial `host:port`. -/
def dialWith (cfg : Config) (env : Env) (authMethods : List AuthMethod) (s : SysState) :
    Except String Nat × SysState :=
  if authMethods.length = 0 then
    (.error "no authentication methods provided in config", s)
  else
    let sshConfig : ClientConfig :=
      { user := cfg.user, auth := authMethods, insecureIgnoreHostKey := true, timeoutSeconds := 5 }
    let address := cfg.host ++ ":" ++ fmtInt cfg.port
    let s := s.emit (.dial address)
    match env.dial "tcp" address sshConfig with
    | .error err => (.error err, s)
    | .ok _ =>
      (.ok s.nextHandle,
        { s with openClients := s.nextHandle :: s.openClients, nextHandle := s.nextHandle + 1 })

/-- The function `getSSHClient`: collect the configured credentials, then connect. -/
def getSSHClient (cfg : Config) (env : Env) (s : SysState) : Except String Nat × SysState :=
  let authMethods : List AuthMethod := []
  let authMethods :=
    if cfg.password ≠ "" then authMethods ++ [AuthMethod.password cfg.password] else authMethods
  if cfg.keyFile ≠ "" then
    let s := s.emit (.readFile cfg.keyFile)
    match env.readFile cfg.keyFile with
    | .error err => (.error ("unable to read private key: " ++ err), s)
    | .ok key =>
      match env.parsePrivateKey key with
      | .error err => (.error ("unable to parse private key: " ++ err), s)
      | .ok signer => dialWith cfg env (authMethods ++ [AuthMethod.publicKeys signer]) s
  else
    dialWith cfg env authMethods s

/-- The call `sshMu.Lock()` once the mutex is free. -/
def acquire (s : SysState) : SysState :=
  { s with locked := true }.emit .lock

/-- The call `sshMu.Unlock()`. -/
def release (s : SysState) : SysState :=
  { s with locked := false }.emit .unlock

/-- The call `client.NewSession()`. -/
def newSession (env : Env) (client : Nat) (s : SysState) : Except String Nat × SysState :=
  let s := s.emit (.newSession client)
  match env.newSession client with
  | .error err => (.error err, s)
  | .ok _ =>
    (.ok s.nextHandle,
      { s with openSessions := s.nextHandle :: s.openSessions, nextHandle := s.nextHandle + 1 })

/-- Lines 111-120: run the command on the session with both streams captured. -/
def sessionRun (env : Env) (session : Nat) (cmd : String) (s : SysState) :
    Except String String × SysState :=
  let s := s.emit (.run session cmd)
  let out := env.run session cmd
  match out.err with
  | some err =>
    (.error ("failed to run command \x27" ++ cmd ++ "\x27: " ++ err ++ ", stderr: " ++ out.stderr), s)
  | none => (.ok out.stdout, s)

/-- The call `session.Close()`. -/
def closeSession (session : Nat) (s : SysState) : SysState :=
  { s with openSessions := s.openSessions.erase session }.emit (.closeSession session)

/-- The call `client.Close()`. -/
def closeClient (client : Nat) (s : SysState) : SysState :=
  { s with openClients := s.openClients.erase client }.emit (.closeClient client)

/-- The function `runSSHCommand`. The result is `none` when the mutex is held at
entry: `sshMu.Lock()` then blocks, and in a sequential run nobody releases it. -/
def runSSHCommand (cfg : Config) (env : Env) (cmd : String) (s : SysState) :
    Option (Except String String × SysState) :=
  if s.locked then none
  else
    let s := acquire s
    match getSSHClient cfg env s with
    | (.error err, s) =>
      some (.error ("failed to connect to SSH: " ++ err), release s)
    | (.ok client, s) =>
      match newSession env client s with
      | (.error err, s) =>
        some (.error ("failed to create SSH session: " ++ err), release (closeClient client s))
      | (.ok session, s) =>
        match sessionRun env session cmd s with
        | (r, s) => some (r, release (closeClient client (closeSession session s)))

/-! ## JSON request bodies

`encoding/json` is a library; the handlers see it through `json.Unmarshal`
into a `FanRequest`. A body is taken after the syntax check of `Unmarshal`
(`checkValid`): either it is rejected there, or it is a JSON value. The
decoding of a value into the struct follows the library: `null` leaves the
target untouched, an object is walked member by member, a member whose key
matches the field (exactly, or under case folding) is stored into it, every
other member is skipped, a type mismatch is recorded (the first one is
returned at the end) and decoding continues. -/

/-- A JSON number literal: an integer literal with its value, or a literal with
a fraction or an exponent, kept as text. -/
inductive JNumber
  | int (i : Int)
  | nonInt (lit : String)
deriving Repr

/-- A syntactically valid JSON value. -/
inductive Json
  | null
  | bool (b : Bool)
  | num (n : JNumber)
  | str (s : String)
  | arr (items : List Json)
  | obj (members : List (String × Json))

/-- The struct `FanRequest`; `speed` is a Go `int` (64 bits). -/
structure FanRequest where
  speed : Int
deriving DecidableEq, Repr

/-- Smallest value of a 64-bit Go `int`. -/
def minInt : Int := -(2 ^ 63)

/-- Largest value of a 64-bit Go `int`. -/
def maxInt : Int := 2 ^ 63 - 1

/-- Case folding of one character as far as it can reach an ASCII letter:
`a`-`z` go to `A`-`Z`, U+017F (long s) to `S`, U+212A (Kelvin sign) to `K`.
Every other character folds, in the library, to a character outside ASCII or
to itself, which is all that a comparison with an ASCII field name needs. -/
def foldRune (c : Char) : Char :=
  if 'a' ≤ c ∧ c ≤ 'z' then Char.ofNat (c.toNat - 32)
  else if c.toNat = 0x17F then 'S'
  else if c.toNat = 0x212A then 'K'
  else c

/-- The folded form of a member name. -/
def foldName (key : String) : List Char :=
  key.data.map foldRune

/-- Whether an object key selects the field tagged `json:"speed"`: an exact
match, or else a match of the folded names. -/
def matchesSpeed (key : String) : Bool :=
  key == "speed" || foldName key == foldName "speed"

/-- Decoder state: the struct being filled and the first recorded type error. -/
structure Decode where
  req : FanRequest
  savedError : Option String
deriving DecidableEq, Repr

/-- Record a type error unless one is recorded already. -/
def Decode.saveError (d : Decode) (value : String) : Decode :=
  match d.savedError with
  | none => { d with savedError := some ("json: cannot unmarshal " ++ value ++
      " into Go struct field FanRequest.speed of type int") }
  | some _ => d

/-- Store one JSON value into the `int` field `Speed`. -/
def storeSpeed (v : Json) (d : Decode) : Decode :=
  match v with
  | .null => d
  | .num (.int i) =>
    if minInt ≤ i ∧ i ≤ maxInt then { d with req := { speed := i } }
    else d.saveError ("number " ++ fmtInt i)
  | .num (.nonInt lit) => d.saveError ("number " ++ lit)
  | .bool _ => d.saveError "bool"
  | .str _ => d.saveError "string"
  | .arr _ => d.saveError "array"
  | .obj _ => d.saveError "object"

/-- Decode one object member into the struct. -/
def decodeMember (d : Decode) (kv : String × Json) : Decode :=
  if matchesSpeed kv.1 then storeSpeed kv.2 d else d

/-- The call `json.Unmarshal(body, &req)` on a syntactically valid body, with
`req` the zero `FanRequest`. -/
def unmarshalFanRequest (j : Json) : Except String FanRequest :=
  match j with
  | .null => .ok { speed := 0 }
  | .obj members =>
    let d := members.foldl decodeMember { req := { speed := 0 }, savedError := none }
    match d.savedError with
    | some err => .error err
    | none => .ok d.req
  | .bool _ => .error "json: cannot unmarshal bool into Go value of type main.FanRequest"
  | .num _ => .error "json: cannot unmarshal number into Go value of type main.FanRequest"
  | .str _ => .error "json: cannot unmarshal string into Go value of type main.FanRequest"
  | .arr _ => .error "json: cannot unmarshal array into Go value of type main.FanRequest"

/-- A request body as the handler meets it. -/
inductive Body
  | readError (err : String)
  | notJson (err : String)
  | json (j : Json)

/-! ## HTTP handlers -/

/-- The parts of an `http.Request` the handlers look at. -/
structure Request where
  method : String
  path : String
  body : Body

/-- What a handler wrote to its `http.ResponseWriter`. -/
structure Response where
  status : Nat
  headers : List (String × String)
  body : String
deriving DecidableEq, Repr

/-- The helper `http.Error`: a plain-text reply, the message followed by a newline. -/
def httpError (msg : String) (code : Nat) : Response :=
  { status := code
    headers := [("Content-Type", "text/plain; charset=utf-8"), ("X-Content-Type-Options", "nosniff")]
    body := msg ++ "\n" }

/-- Outcome of one handler call: the reply, the lines given to `log.Printf`,
and the process state afterwards. -/
structure Handled where
  response : Response
  log : List String
  sys : SysState
deriving DecidableEq, Repr

/-- The predicate `unicode.IsSpace`. -/
def isSpace (c : Char) : Bool :=
  let n := c.toNat
  n == 0x09 || n == 0x0A || n == 0x0B || n == 0x0C || n == 0x0D || n == 0x20 ||
  n == 0x85 || n == 0xA0 || n == 0x1680 || (0x2000 ≤ n && n ≤ 0x200A) ||
  n == 0x2028 || n == 0x2029 || n == 0x202F || n == 0x205F || n == 0x3000

/-- The function `strings.TrimSpace`. -/
def trimSpace (s : String) : String :=
  ⟨(s.data.dropWhile isSpace).rdropWhile isSpace⟩

/-- The handler `handleSensors`. -/
def handleSensors (cfg : Config) (env : Env) (r : Request) (s : SysState) : Option Handled :=
  if r.method ≠ "GET" then
    some { response := httpError "Method not allowed" 405, log := [], sys := s }
  else
    match runSSHCommand cfg env "sensors" s with
    | none => none
    | some (.error err, s) =>
      some { response := httpError "Failed to get sensors output" 500
             log := ["Error running sensors: " ++ err ++ "\n"], sys := s }
    | some (.ok output, s) =>
      some { response := { status := 200, headers := [("Content-Type", "text/plain")], body := output }
             log := [], sys := s }

/-- The command built at line 186. -/
def setFanCommand (speed : Int) : String :=
  "echo " ++ fmtInt speed ++ " > /sys/class/hwmon/hwmon0/pwm1 && echo " ++ fmtInt speed ++
    " > /sys/class/hwmon/hwmon0/pwm2"

/-- The reply written at lines 195-197. -/
def fanUpdated : Response :=
  { status := 200, headers := [("Content-Type", "application/json")]
    body := "\x7b\"status\": \"success\", \"message\": \"Fan speed updated\"\x7d" }

/-- The handler `handleFan`. -/
def handleFan (cfg : Config) (env : Env) (r : Request) (s : SysState) : Option Handled :=
  if r.method = "GET" then
    match runSSHCommand cfg env "cat /sys/class/hwmon/hwmon0/pwm1" s with
    | none => none
    | some (.error err, s) =>
      some { response := httpError "Failed to get fan speed" 500
             log := ["Error getting fan speed: " ++ err ++ "\n"], sys := s }
    | some (.ok output, s) =>
      let speed := trimSpace output
      some { response := { status := 200, headers := [("Content-Type", "application/json")]
                           body := "\x7b\"speed\": " ++ speed ++ "\x7d" }
             log := [], sys := s }
  else if r.method ≠ "POST" then
    some { response := httpError "Method not allowed" 405, log := [], sys := s }
  else
    match r.body with
    | .readError _ =>
      some { response := httpError "Failed to read request body" 400, log := [], sys := s }
    | .notJson _ =>
      some { response := httpError "Invalid JSON" 400, log := [], sys := s }
    | .json j =>
      match unmarshalFanRequest j with
      | .error _ => some { response := httpError "Invalid JSON" 400, log := [], sys := s }
      | .ok req =>
        if req.speed < 0 ∨ req.speed > 255 then
          some { response := httpError "Speed must be between 0 and 255" 400, log := [], sys := s }
        else
          let cmd := setFanCommand req.speed
          match runSSHCommand cfg env cmd s with
          | none => none
          | some (.error err, s) =>
            some { response := httpError "Failed to set fan speed" 500
                   log := ["Error setting fan speed: " ++ err ++ "\n"], sys := s }
          | some (.ok _, s) => some { response := fanUpdated, log := [], sys := s }

/-- The handler `handleIndex`; `indexHTML` is the embedded page. -/
def handleIndex (indexHTML : String) (r : Request) (s : SysState) : Option Handled :=
  if r.path ≠ "/" then
    some { response := httpError "404 page not found" 404, log := [], sys := s }
  else
    some { response := { status := 200, headers := [("Content-Type", "text/html")], body := indexHTML }
           log := [], sys := s }

/-! ## Requests the decoder rejects -/

/-- Whether a JSON value goes into an `int` field without a type error:
`null` (ignored) or an integer literal within the range of `int`. -/
def fitsInt : Json → Bool
  | .null => true
  | .num (.int i) => decide (minInt ≤ i ∧ i ≤ maxInt)
  | _ => false

/-- A body that does not yield a `FanRequest`: it cannot be read, it is not
JSON, it is a JSON value other than an object or `null`, or it is an object in
which a member for `speed` carries a value that is neither `null` nor an
integer in the range of `int`. -/
def malformed : Body → Bool
  | .readError _ => true
  | .notJson _ => true
  | .json .null => false
  | .json (.obj members) => members.any (fun kv => matchesSpeed kv.1 && !fitsInt kv.2)
  | .json _ => true

/-! ## Goroutines calling `runSSHCommand` in parallel

Each caller is a small machine whose control points are the statements of
`runSSHCommand`; a step executes one statement on the shared `SysState`. A
scheduler picks which goroutine moves next and with which outcomes of the
outside world. -/

/-- Control points of one call of `runSSHCommand`, with the locals alive there. -/
inductive Pc
  | entry
  | connect
  | openSession (client : Nat)
  | run (client session : Nat)
  | closeSession (client session : Nat) (r : Except String String)
  | closeClient (client : Nat) (r : Except String String)
  | unlock (r : Except String String)
  | returned (r : Except String String)

/-- One caller: its command and where it stands. -/
structure Goroutine where
  cmd : String
  pc : Pc

/-- One statement of `runSSHCommand` executed by `g`; `none` when `g` cannot
move (it waits for the mutex, or it has returned). -/
def Goroutine.step (cfg : Config) (env : Env) (g : Goroutine) (s : SysState) :
    Option (Goroutine × SysState) :=
  match g.pc with
  | .entry => if s.locked then none else some ({ g with pc := .connect }, acquire s)
  | .connect =>
    match getSSHClient cfg env s with
    | (.error err, s) =>
      some ({ g with pc := .unlock (.error ("failed to connect to SSH: " ++ err)) }, s)
    | (.ok client, s) => some ({ g with pc := .openSession client }, s)
  | .openSession client =>
    match newSession env client s with
    | (.error err, s) =>
      some ({ g with pc := .closeClient client (.error ("failed to create SSH session: " ++ err)) }, s)
    | (.ok session, s) => some ({ g with pc := .run client session }, s)
  | .run client session =>
    match sessionRun env session g.cmd s with
    | (r, s) => some ({ g with pc := .closeSession client session r }, s)
  | .closeSession client session r =>
    some ({ g with pc := .closeClient client r }, closeSession session s)
  | .closeClient client r => some ({ g with pc := .unlock r }, closeClient client s)
  | .unlock r => some ({ g with pc := .returned r }, release s)
  | .returned _ => none

/-- The shared state together with all callers. -/
structure Pool where
  sys : SysState
  gs : List Goroutine

/-- Let goroutine `i` execute one statement; nothing happens when it cannot move. -/
def Pool.step (cfg : Config) (env : Env) (i : Nat) (p : Pool) : Pool :=
  match p.gs[i]? with
  | none => p
  | some g =>
    match g.step cfg env p.sys with
    | none => p
    | some (g', s') => { sys := s', gs := p.gs.set i g' }

/-- Run a schedule: a list of (goroutine, outside world at that step). -/
def Pool.run (cfg : Config) (p : Pool) : List (Nat × Env) → Pool
  | [] => p
  | (i, env) :: rest => Pool.run cfg (p.step cfg env i) rest

/-- One caller per command, none started yet. -/
def Pool.start (s : SysState) (cmds : List String) : Pool :=
  { sys := s, gs := cmds.map (fun c => { cmd := c, pc := .entry }) }

/-- Whether a control point lies between `sshMu.Lock()` and `sshMu.Unlock()`. -/
def inCritical : Pc → Bool
  | .entry => false
  | .returned _ => false
  | _ => true

/-- The client a goroutine has open at a control point. -/
def heldClients : Pc → List Nat
  | .openSession c => [c]
  | .run c _ => [c]
  | .closeSession c _ _ => [c]
  | .closeClient c _ => [c]
  | _ => []

/-- The session a goroutine has open at a control point. -/
def heldSessions : Pc → List Nat
  | .run _ n => [n]
  | .closeSession _ n _ => [n]
  | _ => []

/-! ## Predicates used to state the properties -/

/-- Effects a call of `runSSHCommand cmd` may perform between taking and
releasing the mutex: anything but `lock` and `unlock`, and no command other
than `cmd`. -/
def inner (cmd : String) : Event → Bool
  | .lock => false
  | .unlock => false
  | .run _ c => c == cmd
  | _ => true

/-- From `s` to `t` the mutex was not touched and the trace grew by inner
effects of a call on `cmd` only. -/
def Quiet (cmd : String) (s t : SysState) : Prop :=
  t.locked = s.locked ∧ ∃ mid, t.trace = s.trace ++ mid ∧ ∀ e ∈ mid, inner cmd e = true

/-- The invariant of the pool: either the mutex is free, no goroutine is between
`Lock` and `Unlock` and nothing is open; or the mutex is held, exactly one
goroutine is between `Lock` and `Unlock`, and what is open is what that
goroutine holds. -/
def PoolInv (p : Pool) : Prop :=
  (p.sys.locked = false ∧ (∀ g ∈ p.gs, inCritical g.pc = false) ∧
    p.sys.openClients = [] ∧ p.sys.openSessions = []) ∨
  (p.sys.locked = true ∧ ∃ (i : Nat) (g : Goroutine), p.gs[i]? = some g ∧
    inCritical g.pc = true ∧
    (∀ (j : Nat) (g' : Goroutine), p.gs[j]? = some g' → j ≠ i → inCritical g'.pc = false) ∧
    p.sys.openClients = heldClients g.pc ∧ p.sys.openSessions = heldSessions g.pc)

/-! ## Sample inputs -/

/-- A configuration with a password only. -/
def sampleConfig : Config :=
  { host := "nas", port := 22, user := "root", password := "pw", keyFile := "" }

/-- A configuration with neither credential. -/
def noAuthConfig : Config :=
  { host := "nas", port := 22, user := "root", password := "", keyFile := "" }

/-- An environment in which every call succeeds and commands print `out`. -/
def okEnv (out : String) : Env :=
  { readFile := fun _ => .ok "key"
    parsePrivateKey := fun _ => .ok "signer"
    dial := fun _ _ _ => .ok ()
    newSession := fun _ => .ok ()
    run := fun _ _ => { stdout := out, stderr := "", err := none } }

/-- An environment in which the connection attempt fails with `msg`. -/
def dialFailEnv (msg : String) : Env :=
  { okEnv "" with dial := fun _ _ _ => .error msg }

/-- A GET request. -/
def getRequest (path : String) : Request :=
  { method := "GET", path := path, body := .notJson "unexpected end of JSON input" }

/-- A POST request on `/api/fan` with body `j`. -/
def postFan (j : Json) : Request :=
  { method := "POST", path := "/api/fan", body := .json j }

/-- The body `{"speed": v}`. -/
def speedBody (v : Int) : Json :=
  .obj [("speed", .num (.int v))]

/-- An environment in which the remote command fails with `msg`. -/
def runFailEnv (msg : String) : Env :=
  { okEnv "" with run := fun _ _ => { stdout := "", stderr := "denied", err := some msg } }


/-! ## Facts about the executor -/

theorem Quiet.refl (cmd : String) (s : SysState) : Quiet cmd s s :=
  ⟨rfl, [], by simp, by simp⟩

theorem Quiet.trans {cmd : String} {s t u : SysState} (h₁ : Quiet cmd s t)
    (h₂ : Quiet cmd t u) : Quiet cmd s u := by
  obtain ⟨hl₁, m₁, ht₁, a₁⟩ := h₁
  obtain ⟨hl₂, m₂, ht₂, a₂⟩ := h₂
  refine ⟨hl₂.trans hl₁, m₁ ++ m₂, ?_, ?_⟩
  · rw [ht₂, ht₁, List.append_assoc]
  · intro e he
    rcases List.mem_append.mp he with h | h
    · exact a₁ e h
    · exact a₂ e h

theorem quiet_emit (cmd : String) (s : SysState) (e : Event) (h : inner cmd e = true) :
    Quiet cmd s (s.emit e) :=
  ⟨rfl, [e], rfl, by simpa using h⟩

theorem quiet_emit_with (cmd : String) (s t : SysState) (e : Event) (h : inner cmd e = true)
    (hl : t.locked = s.locked) (ht : t.trace = s.trace ++ [e]) : Quiet cmd s t :=
  ⟨hl, [e], ht, by simpa using h⟩

theorem dialWith_spec (cmd : String) (cfg : Config) (env : Env) (auth : List AuthMethod)
    (s : SysState) :
    Quiet cmd s (dialWith cfg env auth s).2 ∧
    (dialWith cfg env auth s).2.openSessions = s.openSessions ∧
    (∀ c, (dialWith cfg env auth s).1 = .ok c →
      (dialWith cfg env auth s).2.openClients = c :: s.openClients) ∧
    (∀ e, (dialWith cfg env auth s).1 = .error e →
      (dialWith cfg env auth s).2.openClients = s.openClients) := by
  unfold dialWith
  split
  · exact ⟨Quiet.refl cmd s, rfl, by simp, by simp⟩
  · dsimp only
    split
    · exact ⟨quiet_emit cmd s _ rfl, rfl, by simp, by simp [SysState.emit]⟩
    · exact ⟨quiet_emit_with cmd s _ (Event.dial (cfg.host ++ ":" ++ fmtInt cfg.port)) rfl rfl rfl,
        rfl, by simp [SysState.emit], by simp⟩

theorem getSSHClient_spec (cmd : String) (cfg : Config) (env : Env) (s : SysState) :
    Quiet cmd s (getSSHClient cfg env s).2 ∧
    (getSSHClient cfg env s).2.openSessions = s.openSessions ∧
    (∀ c, (getSSHClient cfg env s).1 = .ok c →
      (getSSHClient cfg env s).2.openClients = c :: s.openClients) ∧
    (∀ e, (getSSHClient cfg env s).1 = .error e →
      (getSSHClient cfg env s).2.openClients = s.openClients) := by
  unfold getSSHClient
  dsimp only
  split
  · have hq : Quiet cmd s (s.emit (Event.readFile cfg.keyFile)) := quiet_emit cmd s _ rfl
    split
    · exact ⟨hq, rfl, by simp, by simp [SysState.emit]⟩
    · split
      · exact ⟨hq, rfl, by simp, by simp [SysState.emit]⟩
      · obtain ⟨h₁, h₂, h₃, h₄⟩ := dialWith_spec cmd cfg env
          ((if cfg.password ≠ "" then [] ++ [AuthMethod.password cfg.password] else []) ++
            [AuthMethod.publicKeys _]) (s.emit (Event.readFile cfg.keyFile))
        exact ⟨hq.trans h₁, h₂, h₃, h₄⟩
  · exact dialWith_spec cmd cfg env _ s

theorem newSession_spec (cmd : String) (env : Env) (client : Nat) (s : SysState) :
    Quiet cmd s (newSession env client s).2 ∧
    (newSession env client s).2.openClients = s.openClients ∧
    (∀ c, (newSession env client s).1 = .ok c →
      (newSession env client s).2.openSessions = c :: s.openSessions) ∧
    (∀ e, (newSession env client s).1 = .error e →
      (newSession env client s).2.openSessions = s.openSessions) := by
  unfold newSession
  dsimp only
  split
  · exact ⟨quiet_emit cmd s _ rfl, rfl, by simp, by simp [SysState.emit]⟩
  · exact ⟨quiet_emit_with cmd s _ (Event.newSession client) rfl rfl rfl, rfl,
      by simp [SysState.emit], by simp⟩

theorem sessionRun_spec (env : Env) (session : Nat) (cmd : String) (s : SysState) :
    Quiet cmd s (sessionRun env session cmd s).2 ∧
    (sessionRun env session cmd s).2.openClients = s.openClients ∧
    (sessionRun env session cmd s).2.openSessions = s.openSessions := by
  unfold sessionRun
  dsimp only
  split <;> exact ⟨quiet_emit cmd s _ (by simp [inner]), rfl, rfl⟩

theorem closeSession_quiet (cmd : String) (session : Nat) (s : SysState) :
    Quiet cmd s (closeSession session s) :=
  quiet_emit_with cmd s _ (Event.closeSession session) rfl rfl rfl

theorem closeClient_quiet (cmd : String) (client : Nat) (s : SysState) :
    Quiet cmd s (closeClient client s) :=
  quiet_emit_with cmd s _ (Event.closeClient client) rfl rfl rfl

/-- A quiet stretch between `acquire` and `release` is one bracketed block of the trace. -/
theorem bracket_of_quiet {cmd : String} {s t : SysState} (h : Quiet cmd (acquire s) t) :
    (release t).locked = false ∧
    ∃ mid, (release t).trace = s.trace ++ [Event.lock] ++ mid ++ [Event.unlock] ∧
      ∀ e ∈ mid, inner cmd e = true := by
  obtain ⟨_, mid, ht, a⟩ := h
  refine ⟨rfl, mid, ?_, a⟩
  simp [release, SysState.emit, ht, acquire]

/-- Every exit path of `runSSHCommand`, from a state with the mutex free: the
call returns, the mutex is free again, the open clients and sessions are the
ones open before, and the call added one `lock ... unlock` block to the trace. -/
theorem runSSHCommand_spec (cfg : Config) (env : Env) (cmd : String) (s : SysState)
    (hfree : s.locked = false) :
    ∃ r t, runSSHCommand cfg env cmd s = some (r, t) ∧
      t.locked = false ∧ t.openClients = s.openClients ∧ t.openSessions = s.openSessions ∧
      ∃ mid, t.trace = s.trace ++ [Event.lock] ++ mid ++ [Event.unlock] ∧
        ∀ e ∈ mid, inner cmd e = true := by
  unfold runSSHCommand
  rw [if_neg (by simp [hfree])]
  dsimp only
  obtain ⟨q₁, s₁, ok₁, er₁⟩ := getSSHClient_spec cmd cfg env (acquire s)
  rcases h₁ : getSSHClient cfg env (acquire s) with ⟨r₁, t₁⟩
  rw [h₁] at q₁ s₁ ok₁ er₁
  dsimp only at q₁ s₁ ok₁ er₁
  cases r₁ with
  | error e₁ =>
    dsimp only
    obtain ⟨hl, hm⟩ := bracket_of_quiet q₁
    exact ⟨_, _, rfl, hl, by simpa [release, SysState.emit, acquire] using er₁ e₁ rfl,
      by simpa [release, SysState.emit, acquire] using s₁, hm⟩
  | ok client =>
    dsimp only
    obtain ⟨q₂, c₂, ok₂, er₂⟩ := newSession_spec cmd env client t₁
    rcases h₂ : newSession env client t₁ with ⟨r₂, t₂⟩
    rw [h₂] at q₂ c₂ ok₂ er₂
    dsimp only at q₂ c₂ ok₂ er₂
    have hc₁ : t₁.openClients = client :: s.openClients := by
      simpa [acquire, SysState.emit] using ok₁ client rfl
    have hs₁ : t₁.openSessions = s.openSessions := by
      simpa [acquire, SysState.emit] using s₁
    cases r₂ with
    | error e₂ =>
      dsimp only
      obtain ⟨hl, hm⟩ := bracket_of_quiet ((q₁.trans q₂).trans (closeClient_quiet cmd client t₂))
      refine ⟨_, _, rfl, hl, ?_, ?_, hm⟩
      · simp [release, SysState.emit, closeClient, c₂, hc₁]
      · simp [release, SysState.emit, closeClient, er₂ e₂ rfl, hs₁]
    | ok session =>
      dsimp only
      obtain ⟨q₃, c₃, s₃⟩ := sessionRun_spec env session cmd t₂
      rcases h₃ : sessionRun env session cmd t₂ with ⟨r₃, t₃⟩
      rw [h₃] at q₃ c₃ s₃
      dsimp only at q₃ c₃ s₃
      obtain ⟨hl, hm⟩ := bracket_of_quiet ((((q₁.trans q₂).trans q₃).trans
        (closeSession_quiet cmd session t₃)).trans (closeClient_quiet cmd client _))
      refine ⟨_, _, rfl, hl, ?_, ?_, hm⟩
      · simp [release, SysState.emit, closeClient, closeSession, c₃, c₂, hc₁]
      · simp [release, SysState.emit, closeClient, closeSession, s₃, ok₂ session rfl, hs₁]

/-! ## Facts about the decoder -/

theorem decodeMember_of_not_match (d : Decode) (kv : String × Json)
    (h : matchesSpeed kv.1 = false) : decodeMember d kv = d := by
  simp [decodeMember, h]

theorem foldl_decodeMember_of_no_match (members : List (String × Json)) (d : Decode)
    (h : ∀ kv ∈ members, matchesSpeed kv.1 = false) :
    members.foldl decodeMember d = d := by
  induction members generalizing d with
  | nil => rfl
  | cons kv rest ih =>
    rw [List.foldl_cons, decodeMember_of_not_match d kv (h kv (List.mem_cons_self _ _))]
    exact ih d (fun x hx => h x (List.mem_cons_of_mem _ hx))

theorem saveError_isSome (d : Decode) (v : String) : (d.saveError v).savedError.isSome = true := by
  unfold Decode.saveError
  split
  · rfl
  · simp [*]

theorem storeSpeed_error (v : Json) (d : Decode) :
    (storeSpeed v d).savedError.isSome = (d.savedError.isSome || !fitsInt v) := by
  cases v with
  | null => simp [storeSpeed, fitsInt]
  | bool b => simp [storeSpeed, fitsInt, saveError_isSome]
  | str x => simp [storeSpeed, fitsInt, saveError_isSome]
  | arr x => simp [storeSpeed, fitsInt, saveError_isSome]
  | obj x => simp [storeSpeed, fitsInt, saveError_isSome]
  | num n =>
    cases n with
    | nonInt lit => simp [storeSpeed, fitsInt, saveError_isSome]
    | int i =>
      by_cases h : minInt ≤ i ∧ i ≤ maxInt
      · simp [storeSpeed, fitsInt, h]
      · simp only [storeSpeed, fitsInt, if_neg h, saveError_isSome]
        simp [h]

theorem decodeMember_error (d : Decode) (kv : String × Json) :
    (decodeMember d kv).savedError.isSome =
      (d.savedError.isSome || (matchesSpeed kv.1 && !fitsInt kv.2)) := by
  unfold decodeMember
  by_cases h : matchesSpeed kv.1 = true
  · simp [h, storeSpeed_error]
  · simp [h]

theorem foldl_decodeMember_error (members : List (String × Json)) (d : Decode) :
    (members.foldl decodeMember d).savedError.isSome =
      (d.savedError.isSome || members.any (fun kv => matchesSpeed kv.1 && !fitsInt kv.2)) := by
  induction members generalizing d with
  | nil => simp
  | cons kv rest ih =>
    rw [List.foldl_cons, ih, decodeMember_error, List.any_cons, Bool.or_assoc]

/-- The decoder fails exactly on the malformed JSON values. -/
theorem unmarshal_error_iff (j : Json) :
    (∃ e, unmarshalFanRequest j = .error e) ↔ malformed (.json j) = true := by
  cases j with
  | null => simp [unmarshalFanRequest, malformed]
  | bool b => simp [unmarshalFanRequest, malformed]
  | num n => simp [unmarshalFanRequest, malformed]
  | str x => simp [unmarshalFanRequest, malformed]
  | arr x => simp [unmarshalFanRequest, malformed]
  | obj members =>
    have h := foldl_decodeMember_error members { req := { speed := 0 }, savedError := none }
    simp only [Option.isSome_none, Bool.false_or] at h
    simp only [unmarshalFanRequest, malformed]
    rw [← h]
    cases (members.foldl decodeMember { req := { speed := 0 }, savedError := none }).savedError with
    | none => simp
    | some e => simp

/-! ## Facts about `%d` -/

theorem digitChar_isDigit (n : Nat) (h : n < 10) : (Nat.digitChar n).isDigit = true := by
  interval_cases n <;> rfl

theorem digitChar_not_space (n : Nat) (h : n < 10) : isSpace (Nat.digitChar n) = false := by
  interval_cases n <;> rfl

theorem toDigitsCore_all (P : Char → Prop) (hP : ∀ n, n < 10 → P (Nat.digitChar n))
    (fuel : Nat) : ∀ (n : Nat) (ds : List Char),
    (∀ c ∈ ds, P c) → ∀ c ∈ Nat.toDigitsCore 10 fuel n ds, P c := by
  induction fuel with
  | zero => intro n ds hds; simpa [Nat.toDigitsCore] using hds
  | succ k ih =>
    intro n ds hds
    have hcons : ∀ c ∈ Nat.digitChar (n % 10) :: ds, P c := by
      intro c hc
      rcases List.mem_cons.mp hc with h | h
      · rw [h]; exact hP _ (Nat.mod_lt _ (by decide))
      · exact hds c h
    simp only [Nat.toDigitsCore]
    split
    · exact hcons
    · exact ih _ _ hcons

theorem toDigitsCore_ne_nil (fuel : Nat) : ∀ (n : Nat) (ds : List Char),
    (ds ≠ [] ∨ 0 < fuel) → Nat.toDigitsCore 10 fuel n ds ≠ [] := by
  induction fuel with
  | zero =>
    intro n ds h
    rcases h with h | h
    · simpa [Nat.toDigitsCore] using h
    · exact absurd h (by decide)
  | succ k ih =>
    intro n ds _
    simp only [Nat.toDigitsCore]
    split
    · simp
    · exact ih _ _ (Or.inl (by simp))

theorem repr_ne_nil (n : Nat) : (Nat.repr n).data ≠ [] :=
  toDigitsCore_ne_nil (n + 1) n [] (Or.inr (Nat.succ_pos n))

/-- A natural number prints as a non-empty string of decimal digits. -/
theorem repr_digits (n : Nat) :
    (Nat.repr n).data ≠ [] ∧ ∀ c ∈ (Nat.repr n).data, c.isDigit = true :=
  ⟨repr_ne_nil n, toDigitsCore_all (fun c => c.isDigit = true) digitChar_isDigit (n + 1) n []
    (by simp)⟩

theorem repr_not_space (n : Nat) : ∀ c ∈ (Nat.repr n).data, isSpace c = false :=
  toDigitsCore_all (fun c => isSpace c = false) digitChar_not_space (n + 1) n [] (by simp)

theorem fmtInt_ne_nil (i : Int) : (fmtInt i).data ≠ [] := by
  cases i with
  | ofNat n => exact repr_ne_nil n
  | negSucc n => simp [fmtInt, String.data_append]

theorem fmtInt_not_space (i : Int) : ∀ c ∈ (fmtInt i).data, isSpace c = false := by
  cases i with
  | ofNat n => exact repr_not_space n
  | negSucc n =>
    intro c hc
    simp only [fmtInt, String.data_append, List.mem_append] at hc
    rcases hc with h | h
    · have : c = '-' := by simpa using h
      rw [this]; rfl
    · exact repr_not_space _ c h

/-! ## Facts about `strings.TrimSpace` -/

theorem dropWhile_append_of_all (p : Char → Bool) (pre l : List Char)
    (h : ∀ c ∈ pre, p c = true) : (pre ++ l).dropWhile p = l.dropWhile p := by
  induction pre with
  | nil => rfl
  | cons a rest ih =>
    rw [List.cons_append, List.dropWhile_cons, if_pos (h a (List.mem_cons_self _ _))]
    exact ih (fun c hc => h c (List.mem_cons_of_mem _ hc))

theorem dropWhile_of_head (p : Char → Bool) (l : List Char) (hne : l ≠ [])
    (h : ∀ c ∈ l, p c = false) (tail : List Char) : (l ++ tail).dropWhile p = l ++ tail := by
  cases l with
  | nil => exact absurd rfl hne
  | cons a rest =>
    rw [List.cons_append, List.dropWhile_cons, if_neg (by simp [h a (List.mem_cons_self _ _)])]

/-- Trimming a text that is padded with white space on both sides gives the text. -/
theorem trim_padded (pre mid post : List Char) (hpre : ∀ c ∈ pre, isSpace c = true)
    (hpost : ∀ c ∈ post, isSpace c = true) (hne : mid ≠ [])
    (hmid : ∀ c ∈ mid, isSpace c = false) :
    ((pre ++ mid ++ post).dropWhile isSpace).rdropWhile isSpace = mid := by
  rw [List.append_assoc, dropWhile_append_of_all isSpace pre _ hpre,
    dropWhile_of_head isSpace mid hne hmid post]
  unfold List.rdropWhile
  rw [List.reverse_append,
    dropWhile_append_of_all isSpace post.reverse _ (fun c hc => hpost c (List.mem_reverse.mp hc))]
  have h := dropWhile_of_head isSpace mid.reverse (by simpa using hne)
    (fun c hc => hmid c (List.mem_reverse.mp hc)) []
  rw [List.append_nil] at h
  rw [h, List.reverse_reverse]

theorem trimSpace_padded (pre post : String) (i : Int)
    (hpre : ∀ c ∈ pre.data, isSpace c = true) (hpost : ∀ c ∈ post.data, isSpace c = true) :
    trimSpace (pre ++ fmtInt i ++ post) = fmtInt i := by
  unfold trimSpace
  simp only [String.data_append]
  rw [trim_padded pre.data (fmtInt i).data post.data hpre hpost (fmtInt_ne_nil i)
    (fmtInt_not_space i)]

theorem fmtInt_of_nonneg (v : Int) (h : 0 ≤ v) : fmtInt v = Nat.repr v.toNat := by
  obtain ⟨n, rfl⟩ := Int.eq_ofNat_of_zero_le h
  rfl

/-! ## Facts about the handlers -/

theorem unmarshal_speedBody (v : Int) (h₁ : minInt ≤ v) (h₂ : v ≤ maxInt) :
    unmarshalFanRequest (speedBody v) = .ok { speed := v } := by
  have hm : matchesSpeed "speed" = true := by decide
  simp [unmarshalFanRequest, speedBody, decodeMember, storeSpeed, hm, h₁, h₂]

theorem unmarshal_of_no_match (members : List (String × Json))
    (h : ∀ kv ∈ members, matchesSpeed kv.1 = false) :
    unmarshalFanRequest (.obj members) = .ok { speed := 0 } := by
  simp [unmarshalFanRequest, foldl_decodeMember_of_no_match members _ h]

/-- A POST whose body decodes to a speed in range: the handler is one call of
`runSSHCommand` on the two-write command, and its reply follows the outcome. -/
theorem handleFan_post_eq (cfg : Config) (env : Env) (r : Request) (s : SysState) (j : Json)
    (v : Int) (hm : r.method = "POST") (hb : r.body = .json j)
    (hd : unmarshalFanRequest j = .ok { speed := v }) (h₀ : 0 ≤ v) (h₁ : v ≤ 255) :
    handleFan cfg env r s =
      match runSSHCommand cfg env (setFanCommand v) s with
      | none => none
      | some (.error err, t) =>
        some { response := httpError "Failed to set fan speed" 500
               log := ["Error setting fan speed: " ++ err ++ "\n"], sys := t }
      | some (.ok _, t) => some { response := fanUpdated, log := [], sys := t } := by
  have hr : ¬ (v < 0 ∨ v > 255) := by omega
  have hg : ¬ ("POST" = "GET") := by decide
  unfold handleFan
  simp only [hm, hb, hd, hg, if_false, ne_eq, not_true_eq_false, hr]

/-- The common core of the valid POST paths. -/
theorem handleFan_post_spec (cfg : Config) (env : Env) (r : Request) (s : SysState) (j : Json)
    (v : Int) (hm : r.method = "POST") (hb : r.body = .json j)
    (hd : unmarshalFanRequest j = .ok { speed := v }) (h₀ : 0 ≤ v) (h₁ : v ≤ 255)
    (hfree : s.locked = false) :
    ∃ res t h, runSSHCommand cfg env (setFanCommand v) s = some (res, t) ∧
      handleFan cfg env r s = some h ∧ h.sys = t ∧
      (∃ mid, t.trace = s.trace ++ [Event.lock] ++ mid ++ [Event.unlock] ∧
        ∀ e ∈ mid, inner (setFanCommand v) e = true) ∧
      (∀ out, res = .ok out → h.response = fanUpdated ∧ h.log = []) ∧
      (∀ err, res = .error err → h.response = httpError "Failed to set fan speed" 500 ∧
        h.log = ["Error setting fan speed: " ++ err ++ "\n"]) := by
  obtain ⟨res, t, hrun, _, _, _, hmid⟩ := runSSHCommand_spec cfg env (setFanCommand v) s hfree
  have heq := handleFan_post_eq cfg env r s j v hm hb hd h₀ h₁
  rw [hrun] at heq
  cases res with
  | error err => exact ⟨_, t, _, hrun, heq, rfl, hmid, by simp, by simp⟩
  | ok out => exact ⟨_, t, _, hrun, heq, rfl, hmid, by simp, by simp⟩

/-- The text `{"speed": }` is not `{"speed": <int>}` for any integer. -/
theorem empty_speed_not_integer :
    ¬ ∃ i : Int, ("\x7b\"speed\": \x7d" : String) = "\x7b\"speed\": " ++ fmtInt i ++ "\x7d" := by
  rintro ⟨i, hi⟩
  have hl := congrArg List.length (congrArg String.data hi)
  have hpos : 0 < (fmtInt i).data.length := List.length_pos.mpr (fmtInt_ne_nil i)
  simp only [String.data_append, List.length_append, List.length_cons, List.length_nil] at hl
  omega

/-! ## The properties of the specification -/

/-- C1: a POST on `/api/fan` whose body decodes to a speed below 0 or above 255
is answered with status 400, and the process state is left as it was: nothing
is locked, dialled or run, so no command is built from the value. -/
theorem handleFan_rejects_out_of_range (cfg : Config) (env : Env) (r : Request) (s : SysState)
    (j : Json) (v : Int) (hm : r.method = "POST") (hb : r.body = .json j)
    (hd : unmarshalFanRequest j = .ok { speed := v }) (hv : v < 0 ∨ v > 255) :
    handleFan cfg env r s =
      some { response := httpError "Speed must be between 0 and 255" 400, log := [], sys := s } ∧
    (httpError "Speed must be between 0 and 255" 400).status = 400 := by
  have hg : ¬ ("POST" = "GET") := by decide
  refine ⟨?_, rfl⟩
  unfold handleFan
  simp only [hm, hb, hd, hg, if_false, ne_eq, not_true_eq_false, hv, if_true]

theorem handleFan_rejects_out_of_range_witness :
    handleFan sampleConfig (okEnv "") (postFan (speedBody 256)) SysState.idle =
      some { response := httpError "Speed must be between 0 and 255" 400, log := [],
             sys := SysState.idle } ∧
    (httpError "Speed must be between 0 and 255" 400).status = 400 :=
  handleFan_rejects_out_of_range sampleConfig (okEnv "") (postFan (speedBody 256)) SysState.idle
    (speedBody 256) 256 rfl rfl rfl (by decide)

/-- C2: for 0 ≤ v ≤ 255, a POST on `/api/fan` with body `{"speed": v}` is one
call of `runSSHCommand` (one `lock ... unlock` block is added to the trace and
no other command is run inside it) on the fixed template with the decimal
digits of `v` in both places; when that call succeeds the reply is 200,
`application/json`, with the success envelope. -/
theorem handleFan_post_valid (cfg : Config) (env : Env) (r : Request) (s : SysState) (v : Int)
    (hm : r.method = "POST") (hb : r.body = .json (speedBody v)) (h₀ : 0 ≤ v) (h₁ : v ≤ 255)
    (hfree : s.locked = false) :
    setFanCommand v =
      "echo " ++ Nat.repr v.toNat ++ " > /sys/class/hwmon/hwmon0/pwm1 && echo " ++
        Nat.repr v.toNat ++ " > /sys/class/hwmon/hwmon0/pwm2" ∧
    ((Nat.repr v.toNat).data ≠ [] ∧ ∀ c ∈ (Nat.repr v.toNat).data, c.isDigit = true) ∧
    ∃ res t h, runSSHCommand cfg env (setFanCommand v) s = some (res, t) ∧
      handleFan cfg env r s = some h ∧ h.sys = t ∧
      (∃ mid, t.trace = s.trace ++ [Event.lock] ++ mid ++ [Event.unlock] ∧
        ∀ e ∈ mid, inner (setFanCommand v) e = true) ∧
      (∀ out, res = .ok out →
        h.response =
          { status := 200, headers := [("Content-Type", "application/json")]
            body := "\x7b\"status\": \"success\", \"message\": \"Fan speed updated\"\x7d" }) := by
  have hmin : minInt ≤ v := by unfold minInt; omega
  have hmax : v ≤ maxInt := by unfold maxInt; omega
  refine ⟨by unfold setFanCommand; rw [fmtInt_of_nonneg v h₀], repr_digits _, ?_⟩
  obtain ⟨res, t, h, hrun, hh, hs, hmid, hok, _⟩ :=
    handleFan_post_spec cfg env r s (speedBody v) v hm hb (unmarshal_speedBody v hmin hmax) h₀ h₁
      hfree
  exact ⟨res, t, h, hrun, hh, hs, hmid, fun out ho => (hok out ho).1⟩

theorem handleFan_post_valid_witness :
    setFanCommand 128 =
      "echo " ++ Nat.repr (128 : Int).toNat ++ " > /sys/class/hwmon/hwmon0/pwm1 && echo " ++
        Nat.repr (128 : Int).toNat ++ " > /sys/class/hwmon/hwmon0/pwm2" ∧
    ((Nat.repr (128 : Int).toNat).data ≠ [] ∧
      ∀ c ∈ (Nat.repr (128 : Int).toNat).data, c.isDigit = true) ∧
    ∃ res t h, runSSHCommand sampleConfig (okEnv "") (setFanCommand 128) SysState.idle =
        some (res, t) ∧
      handleFan sampleConfig (okEnv "") (postFan (speedBody 128)) SysState.idle = some h ∧
      h.sys = t ∧
      (∃ mid, t.trace = SysState.idle.trace ++ [Event.lock] ++ mid ++ [Event.unlock] ∧
        ∀ e ∈ mid, inner (setFanCommand 128) e = true) ∧
      (∀ out, res = .ok out →
        h.response =
          { status := 200, headers := [("Content-Type", "application/json")]
            body := "\x7b\"status\": \"success\", \"message\": \"Fan speed updated\"\x7d" }) :=
  handleFan_post_valid sampleConfig (okEnv "") (postFan (speedBody 128)) SysState.idle 128
    rfl rfl (by decide) (by decide) rfl

/-- C3 fails on a JSON `null`: the body `{"speed": null}` is not of the shape
`{"speed": integer}`, yet the decoder ignores the `null`, the speed stays 0,
and the handler runs the command that writes 0 to both channels and answers
200; the bare body `null` is treated the same way. -/
theorem handleFan_null_speed_not_rejected :
    (∃ h, handleFan sampleConfig (okEnv "") (postFan (.obj [("speed", .null)])) SysState.idle =
        some h ∧
      h.response.status = 200 ∧ h.response.status ≠ 400 ∧
      h.sys.trace = [Event.lock, Event.dial "nas:22", Event.newSession 0,
        Event.run 1 "echo 0 > /sys/class/hwmon/hwmon0/pwm1 && echo 0 > /sys/class/hwmon/hwmon0/pwm2",
        Event.closeSession 1, Event.closeClient 0, Event.unlock]) ∧
    (∃ h, handleFan sampleConfig (okEnv "") (postFan .null) SysState.idle = some h ∧
      h.response.status = 200 ∧ h.response.status ≠ 400 ∧
      h.sys.trace = [Event.lock, Event.dial "nas:22", Event.newSession 0,
        Event.run 1 "echo 0 > /sys/class/hwmon/hwmon0/pwm1 && echo 0 > /sys/class/hwmon/hwmon0/pwm2",
        Event.closeSession 1, Event.closeClient 0, Event.unlock]) :=
  ⟨⟨_, rfl, rfl, by decide, rfl⟩, ⟨_, rfl, rfl, by decide, rfl⟩⟩

/-- C3 as amended: a POST on `/api/fan` whose body cannot be read, is not JSON
(a truncated body included), is a JSON value other than an object or `null`,
or is an object in which a member for `speed` carries a value that is neither
`null` nor an integer in the range of `int` (as `{"speed": "x"}`), is answered
with status 400 (`Failed to read request body` for the unreadable body,
`Invalid JSON` otherwise) and the process state is left as it was:
`runSSHCommand` is not called. -/
theorem handleFan_rejects_malformed (cfg : Config) (env : Env) (r : Request) (s : SysState)
    (hm : r.method = "POST") (hbad : malformed r.body = true) :
    handleFan cfg env r s =
      some { response :=
               { status := 400
                 headers := [("Content-Type", "text/plain; charset=utf-8"),
                   ("X-Content-Type-Options", "nosniff")]
                 body :=
                   match r.body with
                   | .readError _ => "Failed to read request body\n"
                   | _ => "Invalid JSON\n" }
             log := [], sys := s } := by
  have hg : ¬ ("POST" = "GET") := by decide
  unfold handleFan
  simp only [hm, hg, if_false, ne_eq, not_true_eq_false]
  cases hb : r.body with
  | readError e => rfl
  | notJson e => rfl
  | json j =>
    rw [hb] at hbad
    obtain ⟨e, he⟩ := (unmarshal_error_iff j).mpr hbad
    simp only [he]
    rfl

theorem handleFan_rejects_malformed_witness :
    handleFan sampleConfig (okEnv "") (postFan (.obj [("speed", .str "x")])) SysState.idle =
      some { response :=
               { status := 400
                 headers := [("Content-Type", "text/plain; charset=utf-8"),
                   ("X-Content-Type-Options", "nosniff")]
                 body :=
                   match (postFan (.obj [("speed", .str "x")])).body with
                   | .readError _ => "Failed to read request body\n"
                   | _ => "Invalid JSON\n" }
             log := [], sys := SysState.idle } :=
  handleFan_rejects_malformed sampleConfig (okEnv "") (postFan (.obj [("speed", .str "x")]))
    SysState.idle rfl (by decide)

/-- C4 fails on `/`: `handleIndex` does not look at the method, a POST on `/`
gets the page with status 200. -/
theorem handleIndex_post_not_405 :
    ∃ h, handleIndex "<html></html>" { method := "POST", path := "/", body := .json .null }
        SysState.idle = some h ∧
      h.response.status = 200 ∧ h.response.status ≠ 405 ∧
      h.response.body = "<html></html>" :=
  ⟨_, rfl, rfl, by decide, rfl⟩

/-- C4 as amended: `handleSensors` answers every method other than GET, and
`handleFan` every method other than GET and POST, with status 405 and leaves
the process state as it was; `handleIndex` never touches the process state and
logs nothing, whatever the method, and answers on `/` with status 200,
`Content-Type: text/html` and the embedded page as the body, and elsewhere
with the 404 reply `404 page not found`. -/
theorem method_not_allowed (cfg : Config) (env : Env) (indexHTML : String)
    (r₁ r₂ r₃ : Request) (s : SysState)
    (h₁ : r₁.method ≠ "GET") (h₂ : r₂.method ≠ "GET") (h₃ : r₂.method ≠ "POST") :
    handleSensors cfg env r₁ s =
      some { response := httpError "Method not allowed" 405, log := [], sys := s } ∧
    handleFan cfg env r₂ s =
      some { response := httpError "Method not allowed" 405, log := [], sys := s } ∧
    (httpError "Method not allowed" 405).status = 405 ∧
    ∃ h, handleIndex indexHTML r₃ s = some h ∧ h.sys = s ∧ h.log = [] ∧
      h.response.status = (if r₃.path = "/" then 200 else 404) ∧
      h.response =
        if r₃.path = "/" then
          { status := 200, headers := [("Content-Type", "text/html")], body := indexHTML }
        else
          { status := 404
            headers := [("Content-Type", "text/plain; charset=utf-8"),
              ("X-Content-Type-Options", "nosniff")]
            body := "404 page not found\n" } := by
  refine ⟨?_, ?_, rfl, ?_⟩
  · unfold handleSensors
    simp only [ne_eq, h₁, not_false_eq_true, if_true]
  · unfold handleFan
    simp only [ne_eq, h₂, h₃, not_false_eq_true, if_true, if_false]
  · unfold handleIndex
    by_cases hp : r₃.path = "/"
    · simp only [ne_eq, hp, not_true_eq_false, if_false, if_true]
      exact ⟨_, rfl, rfl, rfl, rfl, rfl⟩
    · simp only [ne_eq, hp, not_false_eq_true, if_true, if_false]
      exact ⟨_, rfl, rfl, rfl, rfl, rfl⟩

theorem method_not_allowed_witness :
    handleSensors sampleConfig (okEnv "") (postFan .null) SysState.idle =
      some { response := httpError "Method not allowed" 405, log := [], sys := SysState.idle } ∧
    handleFan sampleConfig (okEnv "")
        { method := "DELETE", path := "/api/fan", body := .json .null } SysState.idle =
      some { response := httpError "Method not allowed" 405, log := [], sys := SysState.idle } ∧
    (httpError "Method not allowed" 405).status = 405 ∧
    ∃ h, handleIndex "<html></html>" { method := "PUT", path := "/", body := .json .null }
        SysState.idle = some h ∧ h.sys = SysState.idle ∧ h.log = [] ∧
      h.response.status =
        (if ({ method := "PUT", path := "/", body := .json .null } : Request).path = "/"
        then 200 else 404) ∧
      h.response =
        if ({ method := "PUT", path := "/", body := .json .null } : Request).path = "/" then
          { status := 200, headers := [("Content-Type", "text/html")], body := "<html></html>" }
        else
          { status := 404
            headers := [("Content-Type", "text/plain; charset=utf-8"),
              ("X-Content-Type-Options", "nosniff")]
            body := "404 page not found\n" } :=
  method_not_allowed sampleConfig (okEnv "") "<html></html>" (postFan .null)
    { method := "DELETE", path := "/api/fan", body := .json .null }
    { method := "PUT", path := "/", body := .json .null } SysState.idle
    (by decide) (by decide) (by decide)

/-- C5: on each of the three paths that call `runSSHCommand` (GET `/api/sensors`,
GET `/api/fan`, POST `/api/fan` with a speed in range), whatever error `e` the
call returns, the reply is status 500 with a fixed text in which `e` does not
occur; `e` goes to the log only. -/
theorem executor_failure_is_generic (cfg : Config) (env₁ env₂ env₃ : Env) (r₁ r₂ r₃ : Request)
    (s₁ s₂ s₃ t₁ t₂ t₃ : SysState) (e₁ e₂ e₃ : String) (j : Json) (v : Int)
    (g₁ : r₁.method = "GET")
    (f₁ : runSSHCommand cfg env₁ "sensors" s₁ = some (.error e₁, t₁))
    (g₂ : r₂.method = "GET")
    (f₂ : runSSHCommand cfg env₂ "cat /sys/class/hwmon/hwmon0/pwm1" s₂ = some (.error e₂, t₂))
    (g₃ : r₃.method = "POST") (hb : r₃.body = .json j)
    (hd : unmarshalFanRequest j = .ok { speed := v }) (h₀ : 0 ≤ v) (h₁ : v ≤ 255)
    (f₃ : runSSHCommand cfg env₃ (setFanCommand v) s₃ = some (.error e₃, t₃)) :
    handleSensors cfg env₁ r₁ s₁ =
      some { response := { status := 500
                           headers := [("Content-Type", "text/plain; charset=utf-8"),
                             ("X-Content-Type-Options", "nosniff")]
                           body := "Failed to get sensors output\n" }
             log := ["Error running sensors: " ++ e₁ ++ "\n"], sys := t₁ } ∧
    handleFan cfg env₂ r₂ s₂ =
      some { response := { status := 500
                           headers := [("Content-Type", "text/plain; charset=utf-8"),
                             ("X-Content-Type-Options", "nosniff")]
                           body := "Failed to get fan speed\n" }
             log := ["Error getting fan speed: " ++ e₂ ++ "\n"], sys := t₂ } ∧
    handleFan cfg env₃ r₃ s₃ =
      some { response := { status := 500
                           headers := [("Content-Type", "text/plain; charset=utf-8"),
                             ("X-Content-Type-Options", "nosniff")]
                           body := "Failed to set fan speed\n" }
             log := ["Error setting fan speed: " ++ e₃ ++ "\n"], sys := t₃ } := by
  refine ⟨?_, ?_, ?_⟩
  · unfold handleSensors
    simp only [g₁, ne_eq, not_true_eq_false, if_false, f₁]
    rfl
  · unfold handleFan
    simp only [g₂, if_true, f₂]
    rfl
  · rw [handleFan_post_eq cfg env₃ r₃ s₃ j v g₃ hb hd h₀ h₁, f₃]
    rfl

theorem executor_failure_is_generic_witness :
    handleSensors sampleConfig (dialFailEnv "connection refused") (getRequest "/api/sensors")
        SysState.idle =
      some { response := { status := 500
                           headers := [("Content-Type", "text/plain; charset=utf-8"),
                             ("X-Content-Type-Options", "nosniff")]
                           body := "Failed to get sensors output\n" }
             log := ["Error running sensors: " ++
               "failed to connect to SSH: connection refused" ++ "\n"]
             sys := { SysState.idle with
               trace := [Event.lock, Event.dial "nas:22", Event.unlock] } } ∧
    handleFan sampleConfig (dialFailEnv "no route to host") (getRequest "/api/fan")
        SysState.idle =
      some { response := { status := 500
                           headers := [("Content-Type", "text/plain; charset=utf-8"),
                             ("X-Content-Type-Options", "nosniff")]
                           body := "Failed to get fan speed\n" }
             log := ["Error getting fan speed: " ++
               "failed to connect to SSH: no route to host" ++ "\n"]
             sys := { SysState.idle with
               trace := [Event.lock, Event.dial "nas:22", Event.unlock] } } ∧
    handleFan sampleConfig (dialFailEnv "timeout") (postFan (speedBody 7)) SysState.idle =
      some { response := { status := 500
                           headers := [("Content-Type", "text/plain; charset=utf-8"),
                             ("X-Content-Type-Options", "nosniff")]
                           body := "Failed to set fan speed\n" }
             log := ["Error setting fan speed: " ++ "failed to connect to SSH: timeout" ++ "\n"]
             sys := { SysState.idle with
               trace := [Event.lock, Event.dial "nas:22", Event.unlock] } } :=
  executor_failure_is_generic sampleConfig (dialFailEnv "connection refused")
    (dialFailEnv "no route to host") (dialFailEnv "timeout") (getRequest "/api/sensors")
    (getRequest "/api/fan") (postFan (speedBody 7)) SysState.idle SysState.idle SysState.idle
    _ _ _ _ _ _ (speedBody 7) 7 rfl rfl rfl rfl rfl rfl rfl (by decide) (by decide) rfl

/-- C6 fails when the command prints no integer: on the empty output the reply
is 200 with body `{"speed": }`, which is not `{"speed": <int>}` for any integer. -/
theorem handleFan_get_not_integer :
    ∃ h, handleFan sampleConfig (okEnv "") (getRequest "/api/fan") SysState.idle = some h ∧
      h.response.status = 200 ∧ h.response.body = "\x7b\"speed\": \x7d" ∧
      ¬ ∃ i : Int, h.response.body = "\x7b\"speed\": " ++ fmtInt i ++ "\x7d" :=
  ⟨_, rfl, rfl, rfl, empty_speed_not_integer⟩

/-- C6 as amended: when the read command succeeds with output `out`, GET
`/api/fan` replies 200, `application/json`, with body `{"speed": T}` where `T`
is `out` with the surrounding white space trimmed; whenever `out` is a decimal
integer surrounded by white space the body is `{"speed": <that integer>}`. -/
theorem handleFan_get_body (cfg : Config) (env : Env) (r : Request) (s t : SysState)
    (out : String) (hm : r.method = "GET")
    (hrun : runSSHCommand cfg env "cat /sys/class/hwmon/hwmon0/pwm1" s = some (.ok out, t)) :
    ∃ h, handleFan cfg env r s = some h ∧ h.sys = t ∧ h.log = [] ∧
      h.response.status = 200 ∧
      h.response.headers = [("Content-Type", "application/json")] ∧
      h.response.body = "\x7b\"speed\": " ++ trimSpace out ++ "\x7d" ∧
      ∀ (i : Int) (pre post : String),
        (∀ c ∈ pre.data, isSpace c = true) → (∀ c ∈ post.data, isSpace c = true) →
        out = pre ++ fmtInt i ++ post →
        h.response.body = "\x7b\"speed\": " ++ fmtInt i ++ "\x7d" := by
  unfold handleFan
  simp only [hm, if_true, hrun]
  refine ⟨_, rfl, rfl, rfl, rfl, rfl, rfl, ?_⟩
  intro i pre post hpre hpost ho
  simp only [ho, trimSpace_padded pre post i hpre hpost]

theorem handleFan_get_body_witness :
    ∃ h, handleFan sampleConfig (okEnv "128\n") (getRequest "/api/fan") SysState.idle = some h ∧
      h.sys = { locked := false, openClients := [], openSessions := [], nextHandle := 2
                trace := [Event.lock, Event.dial "nas:22", Event.newSession 0,
                  Event.run 1 "cat /sys/class/hwmon/hwmon0/pwm1", Event.closeSession 1,
                  Event.closeClient 0, Event.unlock] } ∧
      h.log = [] ∧ h.response.status = 200 ∧
      h.response.headers = [("Content-Type", "application/json")] ∧
      h.response.body = "\x7b\"speed\": " ++ trimSpace "128\n" ++ "\x7d" ∧
      ∀ (i : Int) (pre post : String),
        (∀ c ∈ pre.data, isSpace c = true) → (∀ c ∈ post.data, isSpace c = true) →
        "128\n" = pre ++ fmtInt i ++ post →
        h.response.body = "\x7b\"speed\": " ++ fmtInt i ++ "\x7d" :=
  handleFan_get_body sampleConfig (okEnv "128\n") (getRequest "/api/fan") SysState.idle _
    "128\n" rfl rfl

/-- C7: with neither a password nor a key file configured, `getSSHClient` fails
with the no-authentication-method error and performs no effect at all, and
`runSSHCommand`, for every command, returns that error (wrapped) having only
taken and released the mutex: no file is read, nothing is dialled. -/
theorem no_auth_method_refused (cfg : Config) (env : Env) (cmd : String) (s : SysState)
    (hp : cfg.password = "") (hk : cfg.keyFile = "") (hfree : s.locked = false) :
    (∀ s', getSSHClient cfg env s' =
      (.error "no authentication methods provided in config", s')) ∧
    runSSHCommand cfg env cmd s =
      some (.error "failed to connect to SSH: no authentication methods provided in config",
        { s with trace := s.trace ++ [Event.lock, Event.unlock] }) := by
  have hget : ∀ s', getSSHClient cfg env s' =
      (.error "no authentication methods provided in config", s') := by
    intro s'
    simp [getSSHClient, dialWith, hp, hk]
  refine ⟨hget, ?_⟩
  unfold runSSHCommand
  rw [if_neg (by simp [hfree])]
  dsimp only
  rw [hget]
  cases s
  simp_all [release, acquire, SysState.emit]

theorem no_auth_method_refused_witness :
    (∀ s', getSSHClient noAuthConfig (okEnv "") s' =
      (.error "no authentication methods provided in config", s')) ∧
    runSSHCommand noAuthConfig (okEnv "") "sensors" SysState.idle =
      some (.error "failed to connect to SSH: no authentication methods provided in config",
        { SysState.idle with trace := SysState.idle.trace ++ [Event.lock, Event.unlock] }) :=
  no_auth_method_refused noAuthConfig (okEnv "") "sensors" SysState.idle rfl rfl rfl

/-- C9: from a state with the mutex free, on every exit path of `runSSHCommand`
(whatever the outside world answers) the call returns with the mutex free
again and with exactly the clients and sessions open that were open before:
what the call opened it closed, between its `lock` and its final `unlock`. In
particular a state with the mutex free and nothing open is preserved. -/
theorem runSSHCommand_releases (cfg : Config) (env : Env) (cmd : String) (s : SysState)
    (hfree : s.locked = false) :
    ∃ r t, runSSHCommand cfg env cmd s = some (r, t) ∧
      t.locked = false ∧ t.openClients = s.openClients ∧ t.openSessions = s.openSessions ∧
      (∃ mid, t.trace = s.trace ++ [Event.lock] ++ mid ++ [Event.unlock] ∧
        ∀ e ∈ mid, inner cmd e = true) ∧
      (s.openClients = [] ∧ s.openSessions = [] →
        t.openClients = [] ∧ t.openSessions = []) := by
  obtain ⟨r, t, hrun, hl, hc, hs, hmid⟩ := runSSHCommand_spec cfg env cmd s hfree
  exact ⟨r, t, hrun, hl, hc, hs, hmid, fun h => ⟨hc.trans h.1, hs.trans h.2⟩⟩

theorem runSSHCommand_releases_witness :
    ∃ r t, runSSHCommand sampleConfig (runFailEnv "exit status 1") "sensors" SysState.idle =
        some (r, t) ∧
      t.locked = false ∧ t.openClients = SysState.idle.openClients ∧
      t.openSessions = SysState.idle.openSessions ∧
      (∃ mid, t.trace = SysState.idle.trace ++ [Event.lock] ++ mid ++ [Event.unlock] ∧
        ∀ e ∈ mid, inner "sensors" e = true) ∧
      (SysState.idle.openClients = [] ∧ SysState.idle.openSessions = [] →
        t.openClients = [] ∧ t.openSessions = []) :=
  runSSHCommand_releases sampleConfig (runFailEnv "exit status 1") "sensors" SysState.idle rfl

/-- C10: a POST on `/api/fan` whose body is a JSON object without a member for
`speed` decodes to speed 0, passes the range check, and is one call of
`runSSHCommand` on the command that writes 0 to `pwm1` and `pwm2`; the reply is
200 with the success envelope when that call succeeds, and never 400. -/
theorem handleFan_post_without_speed (cfg : Config) (env : Env) (r : Request) (s : SysState)
    (members : List (String × Json)) (hm : r.method = "POST")
    (hb : r.body = .json (.obj members))
    (hno : ∀ kv ∈ members, matchesSpeed kv.1 = false) (hfree : s.locked = false) :
    unmarshalFanRequest (.obj members) = .ok { speed := 0 } ∧
    ∃ res t h,
      runSSHCommand cfg env
        "echo 0 > /sys/class/hwmon/hwmon0/pwm1 && echo 0 > /sys/class/hwmon/hwmon0/pwm2" s =
        some (res, t) ∧
      handleFan cfg env r s = some h ∧ h.sys = t ∧
      (∃ mid, t.trace = s.trace ++ [Event.lock] ++ mid ++ [Event.unlock] ∧
        ∀ e ∈ mid, inner
          "echo 0 > /sys/class/hwmon/hwmon0/pwm1 && echo 0 > /sys/class/hwmon/hwmon0/pwm2" e
            = true) ∧
      h.response.status ≠ 400 ∧
      (∀ out, res = .ok out → h.response.status = 200 ∧ h.response = fanUpdated) := by
  have hd := unmarshal_of_no_match members hno
  refine ⟨hd, ?_⟩
  obtain ⟨res, t, h, hrun, hh, hs, hmid, hok, herr⟩ :=
    handleFan_post_spec cfg env r s (.obj members) 0 hm hb hd (le_refl 0) (by decide) hfree
  have hcmd : setFanCommand 0 =
      "echo 0 > /sys/class/hwmon/hwmon0/pwm1 && echo 0 > /sys/class/hwmon/hwmon0/pwm2" := by
    decide
  rw [hcmd] at hrun hmid
  refine ⟨res, t, h, hrun, hh, hs, hmid, ?_, ?_⟩
  · cases res with
    | error e => rw [(herr e rfl).1]; decide
    | ok out => rw [(hok out rfl).1]; decide
  · intro out ho
    rw [(hok out ho).1]
    exact ⟨rfl, rfl⟩

theorem handleFan_post_without_speed_witness :
    unmarshalFanRequest (.obj [("other", .num (.int 1))]) = .ok { speed := 0 } ∧
    ∃ res t h,
      runSSHCommand sampleConfig (okEnv "")
        "echo 0 > /sys/class/hwmon/hwmon0/pwm1 && echo 0 > /sys/class/hwmon/hwmon0/pwm2"
        SysState.idle = some (res, t) ∧
      handleFan sampleConfig (okEnv "") (postFan (.obj [("other", .num (.int 1))]))
        SysState.idle = some h ∧ h.sys = t ∧
      (∃ mid, t.trace = SysState.idle.trace ++ [Event.lock] ++ mid ++ [Event.unlock] ∧
        ∀ e ∈ mid, inner
          "echo 0 > /sys/class/hwmon/hwmon0/pwm1 && echo 0 > /sys/class/hwmon/hwmon0/pwm2" e
            = true) ∧
      h.response.status ≠ 400 ∧
      (∀ out, res = .ok out → h.response.status = 200 ∧ h.response = fanUpdated) :=
  handleFan_post_without_speed sampleConfig (okEnv "")
    (postFan (.obj [("other", .num (.int 1))])) SysState.idle [("other", .num (.int 1))]
    rfl rfl (by decide) rfl

/-! ## Parallel callers -/

theorem step_of_not_critical (cfg : Config) (env : Env) (g g' : Goroutine) (s s' : SysState)
    (hg : inCritical g.pc = false) (hstep : g.step cfg env s = some (g', s')) :
    s.locked = false ∧ inCritical g'.pc = true ∧ s'.locked = true ∧
      s'.openClients = s.openClients ∧ s'.openSessions = s.openSessions ∧
      heldClients g'.pc = [] ∧ heldSessions g'.pc = [] := by
  unfold Goroutine.step at hstep
  cases hpc : g.pc with
  | entry =>
    rw [hpc] at hstep
    by_cases hl : s.locked = true
    · simp [hl] at hstep
    · simp only [hl, if_false, Option.some.injEq, Prod.mk.injEq] at hstep
      obtain ⟨rfl, rfl⟩ := hstep
      exact ⟨by simpa using hl, rfl, rfl, rfl, rfl, rfl, rfl⟩
  | returned r => rw [hpc] at hstep; simp at hstep
  | connect => rw [hpc] at hg; simp [inCritical] at hg
  | openSession c => rw [hpc] at hg; simp [inCritical] at hg
  | run c n => rw [hpc] at hg; simp [inCritical] at hg
  | closeSession c n r => rw [hpc] at hg; simp [inCritical] at hg
  | closeClient c r => rw [hpc] at hg; simp [inCritical] at hg
  | unlock r => rw [hpc] at hg; simp [inCritical] at hg

theorem step_of_critical (cfg : Config) (env : Env) (g g' : Goroutine) (s s' : SysState)
    (hg : inCritical g.pc = true) (hc : s.openClients = heldClients g.pc)
    (hs : s.openSessions = heldSessions g.pc) (hstep : g.step cfg env s = some (g', s')) :
    (inCritical g'.pc = true ∧ s'.locked = s.locked ∧ s'.openClients = heldClients g'.pc ∧
      s'.openSessions = heldSessions g'.pc) ∨
    (inCritical g'.pc = false ∧ s'.locked = false ∧ s'.openClients = [] ∧
      s'.openSessions = []) := by
  unfold Goroutine.step at hstep
  cases hpc : g.pc with
  | entry => rw [hpc] at hg; simp [inCritical] at hg
  | returned r => rw [hpc] at hg; simp [inCritical] at hg
  | connect =>
    rw [hpc] at hstep hc hs
    dsimp only at hstep
    obtain ⟨q, hs₁, hok, herr⟩ := getSSHClient_spec g.cmd cfg env s
    rcases hget : getSSHClient cfg env s with ⟨r₁, t₁⟩
    rw [hget] at hstep q hs₁ hok herr
    cases r₁ with
    | error e =>
      simp only [Option.some.injEq, Prod.mk.injEq] at hstep
      obtain ⟨rfl, rfl⟩ := hstep
      exact Or.inl ⟨rfl, q.1, (herr e rfl).trans hc, hs₁.trans hs⟩
    | ok c =>
      simp only [Option.some.injEq, Prod.mk.injEq] at hstep
      obtain ⟨rfl, rfl⟩ := hstep
      refine Or.inl ⟨rfl, q.1, ?_, hs₁.trans hs⟩
      rw [hok c rfl, hc]; rfl
  | openSession c =>
    rw [hpc] at hstep hc hs
    dsimp only at hstep
    obtain ⟨q, hc₁, hok, herr⟩ := newSession_spec g.cmd env c s
    rcases hnew : newSession env c s with ⟨r₁, t₁⟩
    rw [hnew] at hstep q hc₁ hok herr
    cases r₁ with
    | error e =>
      simp only [Option.some.injEq, Prod.mk.injEq] at hstep
      obtain ⟨rfl, rfl⟩ := hstep
      exact Or.inl ⟨rfl, q.1, hc₁.trans hc, (herr e rfl).trans hs⟩
    | ok n =>
      simp only [Option.some.injEq, Prod.mk.injEq] at hstep
      obtain ⟨rfl, rfl⟩ := hstep
      refine Or.inl ⟨rfl, q.1, hc₁.trans hc, ?_⟩
      rw [hok n rfl, hs]; rfl
  | run c n =>
    rw [hpc] at hstep hc hs
    dsimp only at hstep
    obtain ⟨q, hc₁, hs₁⟩ := sessionRun_spec env n g.cmd s
    rcases hrun : sessionRun env n g.cmd s with ⟨r₁, t₁⟩
    rw [hrun] at hstep q hc₁ hs₁
    simp only [Option.some.injEq, Prod.mk.injEq] at hstep
    obtain ⟨rfl, rfl⟩ := hstep
    exact Or.inl ⟨rfl, q.1, hc₁.trans hc, hs₁.trans hs⟩
  | closeSession c n r =>
    rw [hpc] at hstep hc hs
    dsimp only at hstep
    simp only [Option.some.injEq, Prod.mk.injEq] at hstep
    obtain ⟨rfl, rfl⟩ := hstep
    refine Or.inl ⟨rfl, rfl, hc, ?_⟩
    simp [closeSession, SysState.emit, hs, heldSessions]
  | closeClient c r =>
    rw [hpc] at hstep hc hs
    dsimp only at hstep
    simp only [Option.some.injEq, Prod.mk.injEq] at hstep
    obtain ⟨rfl, rfl⟩ := hstep
    refine Or.inl ⟨rfl, rfl, ?_, hs⟩
    simp [closeClient, SysState.emit, hc, heldClients]
  | unlock r =>
    rw [hpc] at hstep hc hs
    dsimp only at hstep
    simp only [Option.some.injEq, Prod.mk.injEq] at hstep
    obtain ⟨rfl, rfl⟩ := hstep
    exact Or.inr ⟨rfl, rfl, hc, hs⟩

theorem getElem?_set_same {α : Type} (l : List α) (i : Nat) (a b : α) (h : l[i]? = some a) :
    (l.set i b)[i]? = some b := by
  have hi : i < l.length := (List.getElem?_eq_some.mp h).1
  rw [List.getElem?_set, if_pos rfl, if_pos hi]

/-- One step of any goroutine keeps the invariant. -/
theorem PoolInv.step (cfg : Config) (env : Env) (i : Nat) (p : Pool) (h : PoolInv p) :
    PoolInv (p.step cfg env i) := by
  unfold Pool.step
  cases hg : p.gs[i]? with
  | none => exact h
  | some g =>
    dsimp only
    cases hstep : g.step cfg env p.sys with
    | none => exact h
    | some res =>
      obtain ⟨g', s'⟩ := res
      dsimp only
      rcases h with ⟨hl, hall, hc, hs⟩ | ⟨hl, i₀, g₀, hg₀, hcrit, hothers, hc, hs⟩
      · obtain ⟨_, hcrit', hl', hc', hs', hhc, hhs⟩ :=
          step_of_not_critical cfg env g g' p.sys s' (hall g (List.getElem?_mem hg)) hstep
        refine Or.inr ⟨hl', i, g', getElem?_set_same p.gs i g g' hg, hcrit', ?_, ?_, ?_⟩
        · intro j g'' hj hne
          rw [List.getElem?_set_ne (Ne.symm hne)] at hj
          exact hall g'' (List.getElem?_mem hj)
        · rw [hc', hc, hhc]
        · rw [hs', hs, hhs]
      · by_cases hi : i = i₀
        · subst hi
          rw [hg] at hg₀
          cases hg₀
          rcases step_of_critical cfg env g g' p.sys s' hcrit hc hs hstep with
            ⟨hcrit', hl', hc', hs'⟩ | ⟨hcrit', hl', hc', hs'⟩
          · refine Or.inr ⟨hl'.trans hl, i, g', getElem?_set_same p.gs i g g' hg, hcrit', ?_,
              hc', hs'⟩
            intro j g'' hj hne
            rw [List.getElem?_set_ne (Ne.symm hne)] at hj
            exact hothers j g'' hj hne
          · refine Or.inl ⟨hl', ?_, hc', hs'⟩
            intro g'' hmem
            obtain ⟨j, hj⟩ := List.mem_iff_getElem?.mp hmem
            by_cases hji : j = i
            · subst hji
              rw [getElem?_set_same p.gs j g g' hg] at hj
              cases hj
              exact hcrit'
            · rw [List.getElem?_set_ne (Ne.symm hji)] at hj
              exact hothers j g'' hj hji
        · have hnc := hothers i g hg hi
          obtain ⟨hfree, _⟩ := step_of_not_critical cfg env g g' p.sys s' hnc hstep
          rw [hl] at hfree
          cases hfree

/-- Every schedule keeps the invariant. -/
theorem PoolInv.run (cfg : Config) (sched : List (Nat × Env)) :
    ∀ p : Pool, PoolInv p → PoolInv (Pool.run cfg p sched) := by
  induction sched with
  | nil => intro p h; exact h
  | cons x rest ih =>
    intro p h
    obtain ⟨i, env⟩ := x
    exact ih _ (PoolInv.step cfg env i p h)

theorem Pool.step_length (cfg : Config) (env : Env) (i : Nat) (p : Pool) :
    (p.step cfg env i).gs.length = p.gs.length := by
  unfold Pool.step
  cases p.gs[i]? with
  | none => rfl
  | some g =>
    dsimp only
    cases g.step cfg env p.sys with
    | none => rfl
    | some res => simp

theorem Pool.run_length (cfg : Config) (sched : List (Nat × Env)) :
    ∀ p : Pool, (Pool.run cfg p sched).gs.length = p.gs.length := by
  induction sched with
  | nil => intro p; rfl
  | cons x rest ih =>
    intro p
    obtain ⟨i, env⟩ := x
    exact (ih _).trans (Pool.step_length cfg env i p)

theorem PoolInv.start (s : SysState) (cmds : List String) (hfree : s.locked = false)
    (hc : s.openClients = []) (hs : s.openSessions = []) : PoolInv (Pool.start s cmds) := by
  refine Or.inl ⟨hfree, ?_, hc, hs⟩
  intro g hmem
  simp only [Pool.start, List.mem_map] at hmem
  obtain ⟨c, _, rfl⟩ := hmem
  rfl

theorem critical_le_one (gs : List Goroutine) : ∀ i : Nat,
    (∀ j g', gs[j]? = some g' → j ≠ i → inCritical g'.pc = false) →
    (gs.filter (fun g => inCritical g.pc)).length ≤ 1 := by
  induction gs with
  | nil => intro i _; simp
  | cons a rest ih =>
    intro i h
    cases i with
    | zero =>
      have hrest : rest.filter (fun g => inCritical g.pc) = [] := by
        rw [List.filter_eq_nil_iff]
        intro g hmem
        obtain ⟨n, hn⟩ := List.mem_iff_getElem?.mp hmem
        simp [h (n + 1) g (by simpa using hn) (by omega)]
      rw [List.filter_cons]
      split <;> simp [hrest]
    | succ k =>
      have ha : inCritical a.pc = false := h 0 a (by simp) (by omega)
      rw [List.filter_cons, if_neg (by simp [ha])]
      exact ih k (fun j g' hj hne => h (j + 1) g' (by simpa using hj) (by omega))

theorem PoolInv.bounds (p : Pool) (h : PoolInv p) :
    p.sys.openSessions.length ≤ 1 ∧ p.sys.openClients.length ≤ 1 ∧
      (p.gs.filter (fun g => inCritical g.pc)).length ≤ 1 := by
  rcases h with ⟨_, hall, hc, hs⟩ | ⟨_, i, g, _, _, hothers, hc, hs⟩
  · refine ⟨by simp [hs], by simp [hc], ?_⟩
    have : p.gs.filter (fun g => inCritical g.pc) = [] := by
      rw [List.filter_eq_nil_iff]
      intro g hmem
      simp [hall g hmem]
    simp [this]
  · refine ⟨?_, ?_, critical_le_one p.gs i hothers⟩
    · rw [hs]; cases g.pc <;> simp [heldSessions]
    · rw [hc]; cases g.pc <;> simp [heldClients]

theorem Pool.step_single (cfg : Config) (env : Env) (g g' : Goroutine) (s s' : SysState)
    (h : g.step cfg env s = some (g', s')) :
    Pool.step cfg env 0 { sys := s, gs := [g] } = { sys := s', gs := [g'] } := by
  unfold Pool.step
  simp only [List.getElem?_cons_zero, h, List.set_cons_zero]

theorem Pool.step_returned (cfg : Config) (env : Env) (cmd : String) (r : Except String String)
    (s : SysState) :
    Pool.step cfg env 0 { sys := s, gs := [{ cmd := cmd, pc := .returned r }] } =
      { sys := s, gs := [{ cmd := cmd, pc := .returned r }] } := by
  unfold Pool.step
  simp only [List.getElem?_cons_zero, Goroutine.step]

theorem Pool.run_cons (cfg : Config) (p : Pool) (i : Nat) (env : Env) (rest : List (Nat × Env)) :
    Pool.run cfg p ((i, env) :: rest) = Pool.run cfg (p.step cfg env i) rest := rfl

theorem Pool.run_nil (cfg : Config) (p : Pool) : Pool.run cfg p [] = p := rfl

/-- A goroutine scheduled alone runs `runSSHCommand`: seven steps take it from
entry to its return, with the result and the final state of the function. -/
theorem Pool.run_alone (cfg : Config) (env : Env) (cmd : String) (s : SysState)
    (hfree : s.locked = false) :
    ∃ r t, runSSHCommand cfg env cmd s = some (r, t) ∧
      Pool.run cfg (Pool.start s [cmd])
          [(0, env), (0, env), (0, env), (0, env), (0, env), (0, env), (0, env)] =
        { sys := t, gs := [{ cmd := cmd, pc := .returned r }] } := by
  unfold runSSHCommand
  rw [if_neg (by simp [hfree])]
  have hstart : Pool.start s [cmd] = { sys := s, gs := [{ cmd := cmd, pc := .entry }] } := rfl
  rw [hstart, Pool.run_cons,
    Pool.step_single cfg env _ { cmd := cmd, pc := .connect } s (acquire s)
      (by simp [Goroutine.step, hfree])]
  dsimp only
  rcases h₁ : getSSHClient cfg env (acquire s) with ⟨r₁, t₁⟩
  cases r₁ with
  | error e₁ =>
    refine ⟨_, _, rfl, ?_⟩
    rw [Pool.run_cons, Pool.step_single cfg env _
        { cmd := cmd, pc := .unlock (.error ("failed to connect to SSH: " ++ e₁)) } _ t₁
        (by simp [Goroutine.step, h₁]),
      Pool.run_cons, Pool.step_single cfg env _
        { cmd := cmd, pc := .returned (.error ("failed to connect to SSH: " ++ e₁)) } _
        (release t₁) (by simp [Goroutine.step])]
    simp only [Pool.run_cons, Pool.step_returned, Pool.run_nil]
  | ok client =>
    dsimp only
    rw [Pool.run_cons, Pool.step_single cfg env _ { cmd := cmd, pc := .openSession client } _ t₁
        (by simp [Goroutine.step, h₁])]
    rcases h₂ : newSession env client t₁ with ⟨r₂, t₂⟩
    cases r₂ with
    | error e₂ =>
      refine ⟨_, _, rfl, ?_⟩
      rw [Pool.run_cons, Pool.step_single cfg env _
          { cmd := cmd
            pc := .closeClient client (.error ("failed to create SSH session: " ++ e₂)) } _ t₂
          (by simp [Goroutine.step, h₂]),
        Pool.run_cons, Pool.step_single cfg env _
          { cmd := cmd, pc := .unlock (.error ("failed to create SSH session: " ++ e₂)) } _
          (closeClient client t₂) (by simp [Goroutine.step]),
        Pool.run_cons, Pool.step_single cfg env _
          { cmd := cmd, pc := .returned (.error ("failed to create SSH session: " ++ e₂)) } _
          (release (closeClient client t₂)) (by simp [Goroutine.step])]
      simp only [Pool.run_cons, Pool.step_returned, Pool.run_nil]
    | ok session =>
      dsimp only
      rcases h₃ : sessionRun env session cmd t₂ with ⟨r₃, t₃⟩
      refine ⟨_, _, rfl, ?_⟩
      rw [Pool.run_cons, Pool.step_single cfg env _ { cmd := cmd, pc := .run client session } _ t₂
          (by simp [Goroutine.step, h₂]),
        Pool.run_cons, Pool.step_single cfg env _
          { cmd := cmd, pc := .closeSession client session r₃ } _ t₃
          (by simp [Goroutine.step, h₃]),
        Pool.run_cons, Pool.step_single cfg env _
          { cmd := cmd, pc := .closeClient client r₃ } _ (closeSession session t₃)
          (by simp [Goroutine.step]),
        Pool.run_cons, Pool.step_single cfg env _
          { cmd := cmd, pc := .unlock r₃ } _ (closeClient client (closeSession session t₃))
          (by simp [Goroutine.step]),
        Pool.run_cons, Pool.step_single cfg env _
          { cmd := cmd, pc := .returned r₃ } _
          (release (closeClient client (closeSession session t₃))) (by simp [Goroutine.step])]
      simp only [Pool.run_nil]

/-- Two callers: while the first has its session open the second cannot move,
and one session is open. -/
theorem two_callers_blocked :
    (Pool.run sampleConfig (Pool.start SysState.idle ["sensors", "cat /sys/class/hwmon/hwmon0/pwm1"])
      [(0, okEnv "a"), (1, okEnv "b"), (0, okEnv "a"), (0, okEnv "a"), (1, okEnv "b")]).sys.openSessions
      = [1] ∧
    (Pool.run sampleConfig (Pool.start SysState.idle ["sensors", "cat /sys/class/hwmon/hwmon0/pwm1"])
      [(0, okEnv "a"), (1, okEnv "b"), (0, okEnv "a"), (0, okEnv "a"), (1, okEnv "b")]).gs.map
        (fun g => inCritical g.pc) = [true, false] :=
  ⟨rfl, rfl⟩

/-- C8: for any number of callers of `runSSHCommand` started on a state with the
mutex free and nothing open, and for every interleaving of their statements
(every schedule, every behaviour of the outside world), at every instant at
most one session and at most one client is open and at most one caller is
between `sshMu.Lock()` and `sshMu.Unlock()`: the calls run one at a time. -/
theorem sessions_one_at_a_time (cfg : Config) (cmds : List String) (s : SysState)
    (sched : List (Nat × Env)) (hfree : s.locked = false) (hc : s.openClients = [])
    (hs : s.openSessions = []) :
    (Pool.run cfg (Pool.start s cmds) sched).gs.length = cmds.length ∧
    (Pool.run cfg (Pool.start s cmds) sched).sys.openSessions.length ≤ 1 ∧
    (Pool.run cfg (Pool.start s cmds) sched).sys.openClients.length ≤ 1 ∧
    ((Pool.run cfg (Pool.start s cmds) sched).gs.filter
      (fun g => inCritical g.pc)).length ≤ 1 := by
  refine ⟨?_, PoolInv.bounds _ (PoolInv.run cfg sched _ (PoolInv.start s cmds hfree hc hs))⟩
  rw [Pool.run_length]
  simp [Pool.start]

theorem sessions_one_at_a_time_witness :
    (Pool.run sampleConfig (Pool.start SysState.idle ["sensors", "sensors", "sensors"])
      [(0, okEnv "a"), (1, okEnv "b"), (0, okEnv "a"), (2, okEnv "c"), (0, okEnv "a")]).gs.length
      = ["sensors", "sensors", "sensors"].length ∧
    (Pool.run sampleConfig (Pool.start SysState.idle ["sensors", "sensors", "sensors"])
      [(0, okEnv "a"), (1, okEnv "b"), (0, okEnv "a"), (2, okEnv "c"),
        (0, okEnv "a")]).sys.openSessions.length ≤ 1 ∧
    (Pool.run sampleConfig (Pool.start SysState.idle ["sensors", "sensors", "sensors"])
      [(0, okEnv "a"), (1, okEnv "b"), (0, okEnv "a"), (2, okEnv "c"),
        (0, okEnv "a")]).sys.openClients.length ≤ 1 ∧
    ((Pool.run sampleConfig (Pool.start SysState.idle ["sensors", "sensors", "sensors"])
      [(0, okEnv "a"), (1, okEnv "b"), (0, okEnv "a"), (2, okEnv "c"),
        (0, okEnv "a")]).gs.filter (fun g => inCritical g.pc)).length ≤ 1 :=
  sessions_one_at_a_time sampleConfig ["sensors", "sensors", "sensors"] SysState.idle
    [(0, okEnv "a"), (1, okEnv "b"), (0, okEnv "a"), (2, okEnv "c"), (0, okEnv "a")] rfl rfl rfl

end UnasFan
